import Mathlib

/-
Shallow embedding of the MCP external-validation harness:
  * python_tests/run_test.py            (probe dispatcher)
  * python_tests/test_error_handling.py (error-handling probe)
  * python_tests/test_basic_connection.py / test_transport_compat.py (HTTP prologues)
  * scripts/ecosystem_validator.py      (provisioner, supervisor, invoker, batch, report)

Modelling conventions, applied throughout:
  * Python exceptions are values: each `raise`/library fault becomes a
    constructor of an outcome type, and every `try/except` becomes a total
    function on those outcomes, so the embedded code never diverges.
  * Wall-clock durations and timestamps are environment values; durations are
    fixed to 0 and timestamps passed as parameters, since no claim reads them.
  * Python floats are embedded as exact rationals (Rat); at every comparison
    the code performs, the integer operands involved are small enough that the
    IEEE-double comparison agrees with the exact rational one (argued at the
    point of use).
  * JSON response bodies are abstracted to exactly the observations the
    probes make of them: transport status, presence of a "result" key, and
    the "error" member with its optional integer "code".
-/

/-- Severity grades of an Issue, as used by the python_tests probes. -/
inductive Severity where
  | info
  | warning
  | error
deriving DecidableEq, Repr

/-- An issue dict appended by a probe:
`{severity, category, description, stack_trace?}`. -/
structure Issue where
  severity : Severity
  category : String
  description : String
  stack_trace : Option String := none
deriving DecidableEq, Repr

/-- The `results` counter dict shared by every probe. -/
structure Results where
  connected : Bool := false
  initialized : Bool := false
  tools_found : Nat := 0
  resources_accessible : Nat := 0
  messages_exchanged : Nat := 0
  errors_encountered : Nat := 0
deriving DecidableEq, Repr

/-- The `compatibility` dict in a TestResult.  The `python_version` key
(an environment string read from `sys.version`) is not modelled; no claim
reads it. -/
structure Compatibility where
  sdk_version : String
  protocol_versions : List String
  features : List (String × Bool)
deriving DecidableEq, Repr

/-- The TestResult dict every probe and the dispatcher return.
`results` is `none` for the literal empty dict `{}` that the dispatcher
returns on an unknown test type, `some r` for a populated counter dict. -/
structure TestResult where
  success : Bool
  duration_ms : Nat
  results : Option Results
  error : Option String
  issues : List Issue
  compatibility : Compatibility
deriving DecidableEq, Repr

/-- Python `str` of an optional error code: `None` or the integer. -/
def pyShowOptInt : Option Int → String
  | none => "None"
  | some c => toString c

/-- Stand-in for `traceback.format_exc()`, an environment string derived
from the exception message; no claim reads its exact text. -/
def format_exc (msg : String) : String := "Traceback: " ++ msg

/- ===================== run_test.py : the dispatcher ===================== -/

/-- The static test-type table of `run_test.py` (`test_modules`). -/
def test_modules : List (String × String) :=
  [("basic_connection", "test_basic_connection"),
   ("tool_execution", "test_tool_execution"),
   ("resource_access", "test_resource_access"),
   ("transport_compat", "test_transport_compat"),
   ("error_handling", "test_error_handling"),
   ("prompt_handling", "test_prompt_handling"),
   ("notifications", "test_notifications"),
   ("oauth_auth", "test_oauth_auth")]

/-- Outcome of attempting to import and run a probe module: the import
fails, the probe raises, or the probe returns a TestResult. -/
inductive ProbeInvocation where
  | importError
  | raised (msg : String)
  | returned (r : TestResult)

/-- `run_test.py::run_test`: dispatch on the test type; an unknown type
yields the fixed error-shaped dict, an ImportError the warning-shaped dict,
any other probe exception the caught error-shaped dict.  Totality of this
function is the embedding of "no exception escapes the dispatcher". -/
def run_test (test_type : String) (inv : ProbeInvocation) : TestResult :=
  match (test_modules.lookup test_type : Option String) with
  | none =>
    { success := false
      duration_ms := 0
      results := none
      error := some ("Unknown test type: " ++ test_type)
      issues := [{ severity := Severity.error, category := "test_runner",
                   description := "Test type \x27" ++ test_type ++ "\x27 not found" }]
      compatibility := { sdk_version := "unknown", protocol_versions := [], features := [] } }
  | some module_name =>
    match inv with
    | ProbeInvocation.returned r => r
    | ProbeInvocation.importError =>
      { success := false
        duration_ms := 0
        results := some { errors_encountered := 1 }
        error := some ("Test module not found: " ++ module_name)
        issues := [{ severity := Severity.warning, category := "test_runner",
                     description := "Test " ++ test_type ++ " not implemented yet" }]
        compatibility :=
          { sdk_version := "unknown", protocol_versions := ["2024-11-05"],
            features := [("sse_transport", false), ("websocket_transport", false),
                         ("stdio_transport", true), ("oauth_support", false),
                         ("sampling_support", false), ("logging_levels", true)] } }
    | ProbeInvocation.raised msg =>
      { success := false
        duration_ms := 0
        results := some { errors_encountered := 1 }
        error := some msg
        issues := [{ severity := Severity.error, category := "test_runner",
                     description := "Test execution failed: " ++ msg,
                     stack_trace := some (format_exc msg) }]
        compatibility := { sdk_version := "unknown", protocol_versions := [], features := [] } }

/- ============ test_error_handling.py : the error-handling probe ============ -/

/-- A JSON response body as a probe observes it: either not parseable as
JSON, or a JSON object recording whether a "result" key is present and the
"error" member (`none` = no "error" key; `some c` = "error" present whose
"code", itself optional, is `c`). -/
inductive Body where
  | notJson
  | json (hasResult : Bool) (errorField : Option (Option Int))
deriving DecidableEq, Repr

/-- Outcome of one `session.post`: a client-side exception while sending
(connection refused, timeout, ...), or a response with a transport status
and a body. -/
inductive SendOutcome where
  | exn (msg : String)
  | resp (status : Nat) (body : Body)
deriving DecidableEq, Repr

/-- The local mutable state of `test_error_handling`. -/
structure ErrProbeState where
  results : Results := {}
  issues : List Issue := []
  error_tests_passed : Nat := 0
  error_tests_total : Nat := 0
deriving DecidableEq, Repr

/-- A step of the probe either continues with the updated state or raises,
carrying the exception message together with the state at the raise. -/
inductive StepRes where
  | ok (st : ErrProbeState)
  | raised (msg : String) (st : ErrProbeState)
deriving DecidableEq, Repr

/-- Sequencing of probe steps: a raise propagates past the remaining steps
(up to the probe-level `except`). -/
def andThen (r : StepRes) (f : ErrProbeState → StepRes) : StepRes :=
  match r with
  | StepRes.ok st => f st
  | StepRes.raised m st => StepRes.raised m st

/-- The state held by either constructor of a `StepRes`. -/
def StepRes.state : StepRes → ErrProbeState
  | StepRes.ok st => st
  | StepRes.raised _ st => st

/-- Stand-in for the library text of an `aiohttp` JSON-decode exception on a
non-JSON body; no claim reads it. -/
def jsonDecodeMsg : String := "response body is not JSON"

/-- Rendering of a raised initialize "error" member; the Python message
interpolates the whole error dict, whose exact repr no claim reads. -/
def initErrorMsg (code : Option Int) : String :=
  "Initialize error: code " ++ pyShowOptInt code

/-- The probe prologue of `test_error_handling` (its initialize exchange):
a non-200 status or an "error" member raises; otherwise connected and
initialized are set and messages_exchanged grows by 2.  Note it tests for
the absence of "error", never for the presence of "result". -/
def errInit (st : ErrProbeState) (o : SendOutcome) : StepRes :=
  match o with
  | SendOutcome.exn m => StepRes.raised m st
  | SendOutcome.resp status body =>
    if status ≠ 200 then
      StepRes.raised ("Initialize failed with status " ++ toString status) st
    else
      match body with
      | Body.notJson => StepRes.raised jsonDecodeMsg st
      | Body.json _ errorField =>
        match errorField with
        | some c => StepRes.raised (initErrorMsg c) st
        | none =>
          StepRes.ok { st with results :=
            { st.results with connected := true, initialized := true,
                              messages_exchanged := st.results.messages_exchanged + 2 } }

/-- The per-case data of adversarial sub-checks 1-4 (invalid version,
missing method, unknown method, invalid params): the accepted codes, the
severity and text of the wrong-but-present-code issue, and the text of the
silently-accepted issue. -/
structure SubCheckSpec where
  required : Option Int → Bool
  wrongSev : Severity
  wrongDesc : String
  acceptDesc : String

/-- Common shape of adversarial sub-checks 1-4: bump the total, send; a
non-200 status records nothing; on 200, parse the body (a non-JSON body
raises to the probe boundary), count messages_exchanged by 2, then grade the
"error" member: an accepted code passes, a wrong-but-present code appends
the spec issue, a missing "error" member appends an "error" issue and bumps
errors_encountered. -/
def subCheck (spec : SubCheckSpec) (st : ErrProbeState) (o : SendOutcome) : StepRes :=
  let st := { st with error_tests_total := st.error_tests_total + 1 }
  match o with
  | SendOutcome.exn m => StepRes.raised m st
  | SendOutcome.resp status body =>
    if status = 200 then
      match body with
      | Body.notJson => StepRes.raised jsonDecodeMsg st
      | Body.json _ errorField =>
        let st := { st with results :=
          { st.results with messages_exchanged := st.results.messages_exchanged + 2 } }
        match errorField with
        | some code =>
          if spec.required code then
            StepRes.ok { st with error_tests_passed := st.error_tests_passed + 1 }
          else
            StepRes.ok { st with issues := st.issues ++
              [{ severity := spec.wrongSev, category := "error_handling",
                 description := spec.wrongDesc ++ pyShowOptInt code }] }
        | none =>
          StepRes.ok { st with
            issues := st.issues ++
              [{ severity := Severity.error, category := "error_handling",
                 description := spec.acceptDesc }],
            results := { st.results with
              errors_encountered := st.results.errors_encountered + 1 } }
    else
      StepRes.ok st

/-- Sub-check 1: jsonrpc version other than "2.0"; requires -32600. -/
def spec1 : SubCheckSpec :=
  { required := fun c => decide (c = some (-32600))
    wrongSev := Severity.warning
    wrongDesc := "Wrong error code for invalid JSON-RPC version: "
    acceptDesc := "Server accepted invalid JSON-RPC version" }

/-- Sub-check 2: missing "method" field; requires -32600 or -32602. -/
def spec2 : SubCheckSpec :=
  { required := fun c => decide (c = some (-32600) ∨ c = some (-32602))
    wrongSev := Severity.warning
    wrongDesc := "Wrong error code for missing method: "
    acceptDesc := "Server accepted request without method" }

/-- Sub-check 3: unknown method name; requires -32601 exactly. -/
def spec3 : SubCheckSpec :=
  { required := fun c => decide (c = some (-32601))
    wrongSev := Severity.warning
    wrongDesc := "Wrong error code for unknown method: "
    acceptDesc := "Server accepted unknown method" }

/-- Sub-check 4: required parameter omitted; requires -32602 or -32603.
Its wrong-but-present-code severity in the source is "info", not
"warning". -/
def spec4 : SubCheckSpec :=
  { required := fun c => decide (c = some (-32602) ∨ c = some (-32603))
    wrongSev := Severity.info
    wrongDesc := "Unexpected error code for invalid params: "
    acceptDesc := "Server accepted invalid parameters" }

/-- Sub-check 5 (malformed JSON body): the send is wrapped in its own
try/except, so a client-side exception counts the sub-check as passed; a
received response counts messages_exchanged by 1 (not 2); on status 200 or
400 an "error" member with code -32700 passes, a wrong code appends a
warning, a missing "error" member records nothing, a non-JSON body passes
exactly when the status is 400; any other status appends a warning. -/
def subCheck5 (st : ErrProbeState) (o : SendOutcome) : StepRes :=
  let st := { st with error_tests_total := st.error_tests_total + 1 }
  match o with
  | SendOutcome.exn _ =>
    StepRes.ok { st with error_tests_passed := st.error_tests_passed + 1 }
  | SendOutcome.resp status body =>
    let st := { st with results :=
      { st.results with messages_exchanged := st.results.messages_exchanged + 1 } }
    if status = 200 ∨ status = 400 then
      match body with
      | Body.json _ (some code) =>
        if code = some (-32700) then
          StepRes.ok { st with error_tests_passed := st.error_tests_passed + 1 }
        else
          StepRes.ok { st with issues := st.issues ++
            [{ severity := Severity.warning, category := "error_handling",
               description := "Wrong error code for parse error: " ++ pyShowOptInt code }] }
      | Body.json _ none => StepRes.ok st
      | Body.notJson =>
        if status = 400 then
          StepRes.ok { st with error_tests_passed := st.error_tests_passed + 1 }
        else
          StepRes.ok st
    else
      StepRes.ok { st with issues := st.issues ++
        [{ severity := Severity.warning, category := "error_handling",
           description := "Unexpected status for malformed JSON: " ++ toString status }] }

/-- The server behaviour an error-handling probe run observes: one send
outcome for the initialize exchange and one per adversarial sub-check. -/
structure ErrServer where
  init : SendOutcome
  t1 : SendOutcome
  t2 : SendOutcome
  t3 : SendOutcome
  t4 : SendOutcome
  t5 : SendOutcome

/-- The scripted exchange of `test_error_handling`, up to the probe-level
`except`. -/
def runErrChecks (srv : ErrServer) : StepRes :=
  andThen (errInit {} srv.init) fun st =>
  andThen (subCheck spec1 st srv.t1) fun st =>
  andThen (subCheck spec2 st srv.t2) fun st =>
  andThen (subCheck spec3 st srv.t3) fun st =>
  andThen (subCheck spec4 st srv.t4) fun st =>
  subCheck5 st srv.t5

/-- The probe-level `except Exception`: a raise is converted into an
"execution" error issue plus an errors_encountered bump. -/
def catchErr (r : StepRes) : ErrProbeState :=
  match r with
  | StepRes.ok st => st
  | StepRes.raised m st =>
    { st with
      results := { st.results with
        errors_encountered := st.results.errors_encountered + 1 },
      issues := st.issues ++
        [{ severity := Severity.error, category := "execution",
           description := m, stack_trace := some (format_exc m) }] }

/-- One-decimal percentage `p/t*100` as the `:.1f` format prints it, for
the ratios reachable here (t ≤ 5): exact round-half-up on tenths. -/
def scorePct (p t : Nat) : String :=
  let tenths := (p * 2000 + t) / (2 * t)
  toString (tenths / 10) ++ "." ++ toString (tenths % 10)

/-- The post-run summary: when any sub-check ran, a score below 80%
appends a warning issue.  The Python comparison
`error_tests_passed / error_tests_total * 100 < 80` over IEEE doubles
agrees with the exact `5*passed < 4*total` for every reachable pair
(total ≤ 5, passed ≤ total): the only boundary pair is 4/5, whose
double product rounds to exactly 80.0. -/
def addSummary (st : ErrProbeState) : ErrProbeState :=
  if 0 < st.error_tests_total ∧
      5 * st.error_tests_passed < 4 * st.error_tests_total then
    { st with issues := st.issues ++
      [{ severity := Severity.warning, category := "error_handling",
         description := "Error handling score: " ++
           scorePct st.error_tests_passed st.error_tests_total ++ "% (" ++
           toString st.error_tests_passed ++ "/" ++
           toString st.error_tests_total ++ " tests passed)" }] }
  else st

/-- The final state of a `test_error_handling` run against `srv`. -/
def errFinalState (srv : ErrServer) : ErrProbeState :=
  addSummary (catchErr (runErrChecks srv))

/-- `test_error_handling.py::test_error_handling` as a function of the
observed server behaviour.  The Python success condition
`error_tests_passed >= error_tests_total * 0.8` over IEEE doubles agrees
with the exact `5*passed ≥ 4*total` for every reachable pair (total ≤ 5):
for total 5 the double product `5 * 0.8` rounds to exactly 4.0, and for
smaller totals the double threshold lies strictly between the adjacent
integers. -/
def test_error_handling (srv : ErrServer) : TestResult :=
  let st := errFinalState srv
  { success := st.results.initialized &&
      decide (4 * st.error_tests_total ≤ 5 * st.error_tests_passed)
    duration_ms := 0
    results := some st.results
    error := if st.results.errors_encountered = 0 then none
             else some "Error handling test failed"
    issues := st.issues
    compatibility :=
      { sdk_version := "1.0.0", protocol_versions := ["2024-11-05"],
        features := [("sse_transport", false), ("websocket_transport", false),
                     ("stdio_transport", false), ("oauth_support", false),
                     ("sampling_support", false), ("logging_levels", true)] } }

/-- Whether the scripted exchange ran to completion (no raise). -/
def errRunCompletes (srv : ErrServer) : Bool :=
  match runErrChecks srv with
  | StepRes.ok _ => true
  | StepRes.raised _ _ => false

/- ====== test_basic_connection.py / test_transport_compat.py : prologues ====== -/

/-- The HTTP branch of `test_basic_connection`: the handshake sets
`connected` on a 200 status, then sets `initialized` and counts 2 messages
only when the body has a "result" key; a non-200 status records a
connection error.  `isTimeout` selects which `except` clause a client-side
exception lands in (`asyncio.TimeoutError` vs the generic one); the file
does not import `traceback`, so the generic clause attaches no stack trace.
Returns the `results` counters and the `issues` list. -/
def test_basic_connection_http (o : SendOutcome) (isTimeout : Bool) :
    Results × List Issue :=
  match o with
  | SendOutcome.exn m =>
    if isTimeout then
      ({ errors_encountered := 1 },
       [{ severity := Severity.error, category := "timeout",
          description := "Connection timed out" }])
    else
      ({ errors_encountered := 1 },
       [{ severity := Severity.error, category := "connection", description := m }])
  | SendOutcome.resp status body =>
    if status = 200 then
      match body with
      | Body.notJson =>
        -- response.json() raises; caught by the generic except clause
        ({ connected := true, errors_encountered := 1 },
         [{ severity := Severity.error, category := "connection",
            description := jsonDecodeMsg }])
      | Body.json hasResult _ =>
        if hasResult then
          ({ connected := true, initialized := true, messages_exchanged := 2 }, [])
        else
          ({ connected := true }, [])
    else
      ({ errors_encountered := 1 },
       [{ severity := Severity.error, category := "connection",
          description := "HTTP " ++ toString status ++ ": Failed to initialize" }])

/-- Outcome of the GET probe of the conventional `/sse` suffix. -/
inductive SseOutcome where
  | exn
  | status (s : Nat)
deriving DecidableEq, Repr

/-- The HTTP branch of `test_transport_compat`: the same handshake shape as
the basic-connection probe (200 status plus a "result" key), except that an
absent "result" key records an "Invalid initialization response" error
issue without touching errors_encountered; afterwards the `/sse` suffix is
probed, a 200 adding an informational issue and the "sse" transport tag;
a client-side exception during the handshake raises to the probe boundary
(skipping the SSE probe) and is caught there.  Returns the counters, the
issues, and the `transports_tested` list. -/
def test_transport_compat_http (init : SendOutcome) (sse : SseOutcome) :
    Results × List Issue × List String :=
  match init with
  | SendOutcome.exn m =>
    ({ errors_encountered := 1 },
     [{ severity := Severity.error, category := "execution", description := m,
        stack_trace := some (format_exc m) }],
     ["http"])
  | SendOutcome.resp status body =>
    let afterInit : Results × List Issue × Bool :=
      if status = 200 then
        match body with
        | Body.notJson => ({ connected := true }, [], true)  -- json.loads raises
        | Body.json hasResult _ =>
          if hasResult then
            (({ connected := true, initialized := true, messages_exchanged := 2 } :
                Results), [], false)
          else
            (({ connected := true } : Results),
             [{ severity := Severity.error, category := "http_transport",
                description := "Invalid initialization response" }], false)
      else
        (({ errors_encountered := 1 } : Results),
         [{ severity := Severity.error, category := "http_transport",
            description := "HTTP transport failed with status " ++ toString status }],
         false)
    match afterInit with
    | (res, iss, raisedInInit) =>
      if raisedInInit then
        ({ res with errors_encountered := res.errors_encountered + 1 },
         iss ++ [{ severity := Severity.error, category := "execution",
                   description := jsonDecodeMsg,
                   stack_trace := some (format_exc jsonDecodeMsg) }],
         ["http"])
      else
        match sse with
        | SseOutcome.status 200 =>
          (res, iss ++ [{ severity := Severity.info, category := "sse_transport",
                          description := "SSE endpoint available" }],
           ["http", "sse"])
        | _ => (res, iss, ["http"])

/- ============ scripts/ecosystem_validator.py : the orchestrator ============ -/

/-- `sys.executable`, an environment value. -/
def sysExecutable : String := "python3"

/-- The config dict built by `setup_test_environment`.  The Python dict key
`"type"` is the field `type_` (a Lean keyword). -/
structure ProvisionConfig where
  path : String
  type_ : String
  start_command : Option (List String)
  port : Option Nat
deriving DecidableEq, Repr

/-- What `setup_test_environment` observes of a cloned repository: whether
anything in the body raised, whether the clone succeeded, which manifest
files exist, the npm script names, and the glob results for
`src/mcp_*` and `examples/*server*.py`. -/
structure Repo where
  raises : Bool
  clone_ok : Bool
  has_package_json : Bool
  npm_scripts : List String
  has_pyproject : Bool
  has_setup_py : Bool
  has_src : Bool
  src_mcp_dirs : List String
  has_examples : Bool
  example_server_files : List String
deriving DecidableEq, Repr

/-- `setup_test_environment`: a raise anywhere or a failed clone yields
`None` (after best-effort cleanup); otherwise the ecosystem is classified
by manifest files.  A repo with none of package.json / pyproject.toml /
setup.py keeps `type "unknown"` with no start command and no port, and is
still a non-None config. -/
def setup_test_environment (temp_dir : String) (repo : Repo) :
    Option ProvisionConfig :=
  if repo.raises then none
  else if !repo.clone_ok then none
  else if repo.has_package_json then
    some { path := temp_dir, type_ := "node", port := some 3000,
           start_command :=
             if repo.npm_scripts.contains "start" then some ["npm", "start"]
             else if repo.npm_scripts.contains "dev" then some ["npm", "run", "dev"]
             else none }
  else if repo.has_pyproject || repo.has_setup_py then
    let fromSrc : Option (List String) :=
      if repo.has_src && !repo.src_mcp_dirs.isEmpty then
        some [sysExecutable, "-m", repo.src_mcp_dirs.headD ""]
      else none
    let cmd : Option (List String) :=
      if repo.has_examples && !repo.example_server_files.isEmpty then
        some [sysExecutable, repo.example_server_files.headD ""]
      else fromSrc
    some { path := temp_dir, type_ := "python", port := some 8080,
           start_command := cmd }
  else
    some { path := temp_dir, type_ := "unknown", start_command := none,
           port := none }

/-- What `start_server` observes: after the grace period the process is
still alive, already exited (with captured output), or spawning raised. -/
inductive StartOutcome where
  | running
  | exited (stdout stderr : String)
  | spawnRaised (msg : String)
deriving DecidableEq, Repr

/-- The command actually spawned: the start command plus a `--port` flag
when a port is known. -/
def startCommand (cfg : ProvisionConfig) : List String :=
  cfg.start_command.getD [] ++
    (match cfg.port with
     | some p => ["--port", toString p]
     | none => [])

/-- `start_server`: with no start command the result is `None` immediately;
otherwise a handle is returned exactly when the process is still alive
after the grace period.  `true` models a returned process handle. -/
def start_server (cfg : ProvisionConfig) (o : StartOutcome) : Bool :=
  match cfg.start_command with
  | none => false
  | some _ =>
    match o with
    | StartOutcome.running => true
    | StartOutcome.exited _ _ => false
    | StartOutcome.spawnRaised _ => false

/-- The single structured document the external validation engine must
emit on stdout, as `validate_implementation` reads it. -/
structure EngineDoc where
  status : Option String
  compliance_score : Option Rat
  protocol_version : Option String
  capabilities : List String
  issues : List Issue
deriving DecidableEq, Repr

/-- The engine's standard output: empty, present but not valid JSON, or a
parsed document. -/
inductive EngineOut where
  | empty
  | invalid (raw : String)
  | valid (doc : EngineDoc)
deriving DecidableEq, Repr

/-- Outcome of the engine subprocess: exceeded its timeout, some other
harness exception, or ran to completion with an exit code, stdout and
stderr. -/
inductive RunOutcome where
  | timedOut
  | exn (msg : String)
  | completed (exitCode : Int) (stdout : EngineOut) (stderr : String)
deriving DecidableEq, Repr

/-- The dict `validate_server` returns. -/
inductive VOut where
  | doc (d : EngineDoc)
  | build_failed (stderr : String)
  | parse_error (raw : String)
  | no_output (stderr : String)
  | timeout
  | error (msg : String)
deriving DecidableEq, Repr

/-- `validate_server`: when the engine binary is missing and building it
exits non-zero, `build_failed`; a subprocess timeout maps to `timeout` and
any other exception to `error`; on completion only stdout is examined —
the engine's exit code is never read — empty stdout maps to `no_output`,
unparsable stdout to `parse_error`, and a parsed document is returned
as-is. -/
def validate_server (validatorExists : Bool) (buildExit : Int)
    (buildStderr : String) (run : RunOutcome) : VOut :=
  if !validatorExists && buildExit ≠ 0 then VOut.build_failed buildStderr
  else
    match run with
    | RunOutcome.timedOut => VOut.timeout
    | RunOutcome.exn m => VOut.error m
    | RunOutcome.completed _ stdout stderr =>
      match stdout with
      | EngineOut.empty => VOut.no_output stderr
      | EngineOut.invalid raw => VOut.parse_error raw
      | EngineOut.valid d => VOut.doc d

/-- The "status" key of a `validate_server` result dict. -/
def VOut.statusKey : VOut → Option String
  | VOut.doc d => d.status
  | VOut.build_failed _ => some "build_failed"
  | VOut.parse_error _ => some "parse_error"
  | VOut.no_output _ => some "no_output"
  | VOut.timeout => some "timeout"
  | VOut.error _ => some "error"

/-- The "compliance_score" key of a `validate_server` result dict. -/
def VOut.scoreKey : VOut → Option Rat
  | VOut.doc d => d.compliance_score
  | _ => none

/-- The "protocol_version" key of a `validate_server` result dict. -/
def VOut.protoKey : VOut → Option String
  | VOut.doc d => d.protocol_version
  | _ => none

/-- The "capabilities" key (default `[]`) of a `validate_server` result. -/
def VOut.capsKey : VOut → List String
  | VOut.doc d => d.capabilities
  | _ => []

/-- The "issues" key (default `[]`) of a `validate_server` result. -/
def VOut.issuesKey : VOut → List Issue
  | VOut.doc d => d.issues
  | _ => []

/-- The per-target result dataclass of the ecosystem validator. -/
structure ValidationResult where
  server_name : String
  server_url : String
  status : String
  compliance_score : Option Rat
  protocol_version : Option String
  capabilities : List String
  issues : List Issue
  duration_ms : Nat
  timestamp : String
  error_message : Option String := none
deriving DecidableEq, Repr

/-- Everything one `validate_implementation` call observes of its target
and environment. -/
structure TargetEnv where
  temp_dir : String
  repo : Repo
  startOut : StartOutcome
  validatorExists : Bool
  buildExit : Int
  buildStderr : String
  runOut : RunOutcome
  timestamp : String
deriving DecidableEq, Repr

/-- Python `str` of an optional port: `None` or the number.  The config
dict always carries the "port" key, so `config.get("port", 8080)` returns
its value — possibly `None` — and the f-string renders that. -/
def pyShowOptNat : Option Nat → String
  | none => "None"
  | some p => toString p

/-- `validate_implementation`: a `None` provisioning result yields
`setup_failed`; a provisioned target whose process did not start yields
`failed_to_start`; a running target is handed to `validate_server`, whose
dict supplies the status (default "unknown"), score, protocol version,
capabilities and issues. -/
def validate_implementation (server_name repo_url : String) (env : TargetEnv) :
    ValidationResult :=
  match setup_test_environment env.temp_dir env.repo with
  | none =>
    { server_name := server_name, server_url := repo_url,
      status := "setup_failed", compliance_score := none,
      protocol_version := none, capabilities := [], issues := [],
      duration_ms := 0, timestamp := env.timestamp,
      error_message := some "Failed to setup test environment" }
  | some config =>
    if start_server config env.startOut then
      let v := validate_server env.validatorExists env.buildExit
        env.buildStderr env.runOut
      { server_name := server_name,
        server_url := "http://localhost:" ++ pyShowOptNat config.port,
        status := v.statusKey.getD "unknown",
        compliance_score := v.scoreKey, protocol_version := v.protoKey,
        capabilities := v.capsKey, issues := v.issuesKey,
        duration_ms := 0, timestamp := env.timestamp, error_message := none }
    else
      { server_name := server_name, server_url := repo_url,
        status := "failed_to_start", compliance_score := none,
        protocol_version := none, capabilities := [], issues := [],
        duration_ms := 0, timestamp := env.timestamp,
        error_message := some "Server process failed to start" }

/-- How one dispatched validation task ends: with its
`validate_implementation` result, or with an internal exception that
`asyncio.gather(..., return_exceptions=True)` hands back as a value. -/
inductive TaskOutcome where
  | completed (env : TargetEnv)
  | internalFault (msg : String)
deriving Repr

/-- One discovered target together with how its task ends. -/
structure Target where
  name : String
  url : String
  outcome : TaskOutcome
deriving Repr

/-- The terminal value one slot of the gathered list holds: a result for a
completed task, nothing (after logging) for a raised one. -/
def runTask (t : Target) : Option ValidationResult :=
  match t.outcome with
  | TaskOutcome.completed env => some (validate_implementation t.name t.url env)
  | TaskOutcome.internalFault _ => none

/-- `run_validation`: gather every task's outcome, then keep exactly the
`ValidationResult` values, dropping (after logging) the exceptions. -/
def run_validation (targets : List Target) : List ValidationResult :=
  targets.filterMap runTask

/-- Whether a task completes without an internal exception. -/
def TaskOutcome.isCompleted : TaskOutcome → Bool
  | TaskOutcome.completed _ => true
  | TaskOutcome.internalFault _ => false

/- ================== generate_report and recommendations ================== -/

/-- The successful count: results whose status is compliant or passed. -/
def successfulValidations (rs : List ValidationResult) : Nat :=
  (rs.filter (fun r => r.status == "compliant" || r.status == "passed")).length

/-- The compliance scores carried by a result collection, in order. -/
def complianceScores (rs : List ValidationResult) : List Rat :=
  rs.filterMap (fun r => r.compliance_score)

/-- `avg_compliance`: computed only when at least one validation was
successful AND at least one result carries a score; the mean then runs
over every score-carrying result, successful or not.  Python's float mean
is embedded as the exact rational mean. -/
def averageCompliance (rs : List ValidationResult) : Option Rat :=
  if 0 < successfulValidations rs then
    let scores := complianceScores rs
    if scores.isEmpty then none
    else some (scores.sum / (scores.length : Rat))
  else none

/-- `success_rate`: successful/total*100, and 0 when the total is 0. -/
def successRate (rs : List ValidationResult) : Rat :=
  if 0 < rs.length then
    (successfulValidations rs : Rat) / (rs.length : Rat) * 100
  else 0

/-- A histogram over a list of keys, in first-occurrence order, matching
Python dict insertion order. -/
def histogram (keys : List String) : List (String × Nat) :=
  keys.eraseDups.map (fun s => (s, (keys.filter (fun k => k == s)).length))

/-- The status histogram of a report. -/
def statusDistribution (rs : List ValidationResult) : List (String × Nat) :=
  histogram (rs.map (fun r => r.status))

/-- The protocol-version histogram of a report (absent versions are
skipped). -/
def protocolVersionDistribution (rs : List ValidationResult) :
    List (String × Nat) :=
  histogram (rs.filterMap (fun r => r.protocol_version))

/-- `_generate_recommendations`; the leading emoji bytes of each message
are not modelled. -/
def generateRecommendations (rs : List ValidationResult) : List String :=
  let failed_count :=
    (rs.filter (fun r => !(r.status == "compliant" || r.status == "passed"))).length
  let setup_failures := (rs.filter (fun r => r.status == "setup_failed")).length
  let start_failures := (rs.filter (fun r => r.status == "failed_to_start")).length
  let versions := rs.filterMap (fun r => r.protocol_version)
  let recs :=
    (if 0 < failed_count then
      [toString failed_count ++ " implementations failed validation. " ++
        "Consider improving framework compatibility."] else []) ++
    (if 0 < setup_failures then
      [toString setup_failures ++ " implementations had setup issues. " ++
        "This may indicate missing dependencies or unclear setup instructions."]
     else []) ++
    (if 0 < start_failures then
      [toString start_failures ++ " servers failed to start. " ++
        "Consider standardizing server startup mechanisms."] else []) ++
    (if 1 < versions.eraseDups.length then
      ["Multiple protocol versions detected. " ++
        "Ensure backward compatibility across versions."] else [])
  if recs.isEmpty then ["All validations passed successfully!"] else recs

/-- The summary block of a report. -/
structure ReportSummary where
  total_validations : Nat
  successful_validations : Nat
  success_rate : Rat
  average_compliance_score : Option Rat
deriving DecidableEq, Repr

/-- A generated report (persisting it to a file is I/O, not modelled). -/
structure Report where
  summary : ReportSummary
  status_distribution : List (String × Nat)
  protocol_version_distribution : List (String × Nat)
  detailed_results : List ValidationResult
  recommendations : List String
deriving DecidableEq, Repr

/-- `generate_report` over a result collection. -/
def generate_report (rs : List ValidationResult) : Report :=
  { summary :=
      { total_validations := rs.length
        successful_validations := successfulValidations rs
        success_rate := successRate rs
        average_compliance_score := averageCompliance rs }
    status_distribution := statusDistribution rs
    protocol_version_distribution := protocolVersionDistribution rs
    detailed_results := rs
    recommendations := generateRecommendations rs }

/- ============================== theorems ============================== -/

/-- C1: for every test request whose test_type is not one of the eight
registered types, the dispatcher returns success=false, an error message
naming the unrecognized type, and an "error"-severity Issue naming the
type; and (last conjunct) a probe-internal exception never escapes: for
every type and exception it is normalized into a success=false result. -/
theorem run_test_unknown_type (test_type : String) (inv : ProbeInvocation)
    (h : test_modules.lookup test_type = none) :
    (run_test test_type inv).success = false ∧
    (run_test test_type inv).error = some ("Unknown test type: " ++ test_type) ∧
    (run_test test_type inv).issues =
      [{ severity := Severity.error, category := "test_runner",
         description := "Test type \x27" ++ test_type ++ "\x27 not found" }] ∧
    (∀ ty msg, (run_test ty (ProbeInvocation.raised msg)).success = false) := by
  refine ⟨?_, ?_, ?_, ?_⟩
  · simp [run_test, h]
  · simp [run_test, h]
  · simp [run_test, h]
  · intro ty msg
    unfold run_test
    cases hl : test_modules.lookup ty <;> simp [hl]

/-- Witness for C1 at the concrete unregistered type "fuzzing". -/
theorem run_test_unknown_type_witness :
    (run_test "fuzzing" ProbeInvocation.importError).success = false ∧
    (run_test "fuzzing" ProbeInvocation.importError).error =
      some ("Unknown test type: " ++ "fuzzing") ∧
    (run_test "fuzzing" ProbeInvocation.importError).issues =
      [{ severity := Severity.error, category := "test_runner",
         description := "Test type \x27" ++ "fuzzing" ++ "\x27 not found" }] ∧
    (∀ ty msg, (run_test ty (ProbeInvocation.raised msg)).success = false) :=
  run_test_unknown_type "fuzzing" ProbeInvocation.importError (by decide)

/-- An engine document reporting status "passed". -/
def passedDoc : EngineDoc :=
  { status := some "passed", compliance_score := none, protocol_version := none,
    capabilities := [], issues := [] }

/-- C7 counterexample: a run of the engine that exits non-zero but prints a
valid document is classified exactly like a zero-exit run — its "status" is
the document's own, not a distinct failure status — so non-zero exit is not
mapped to its own status value. -/
theorem validate_server_exit_code_counterexample :
    validate_server true 0 "" (RunOutcome.completed 1 (EngineOut.valid passedDoc) "") =
      validate_server true 0 "" (RunOutcome.completed 0 (EngineOut.valid passedDoc) "") ∧
    (validate_server true 0 ""
        (RunOutcome.completed 1 (EngineOut.valid passedDoc) "")).statusKey =
      some "passed" := by
  exact ⟨rfl, rfl⟩

/-- C7 amended: no output, unparsable output, exceeded timeout, a failed
build of the engine, and an internal exception are mapped to the pairwise
distinct statuses no_output / parse_error / timeout / build_failed / error;
the engine's exit code is never examined (two completions differing only in
exit code give identical results), so non-zero exit has no status of its
own. -/
theorem validate_server_failure_modes (be : Int) (bs se raw : String)
    (c c2 : Int) (o : EngineOut) (r : RunOutcome) :
    (validate_server true be bs RunOutcome.timedOut).statusKey = some "timeout" ∧
    (validate_server true be bs
        (RunOutcome.completed c EngineOut.empty se)).statusKey = some "no_output" ∧
    (validate_server true be bs
        (RunOutcome.completed c (EngineOut.invalid raw) se)).statusKey =
      some "parse_error" ∧
    (validate_server false 1 bs r).statusKey = some "build_failed" ∧
    (validate_server true be bs (RunOutcome.exn se)).statusKey = some "error" ∧
    List.Pairwise (fun a b => a ≠ b)
      ["timeout", "no_output", "parse_error", "build_failed", "error"] ∧
    validate_server true be bs (RunOutcome.completed c o se) =
      validate_server true be bs (RunOutcome.completed c2 o se) := by
  refine ⟨rfl, rfl, rfl, rfl, rfl, by decide, ?_⟩
  cases o <;> rfl

/-- A failed result that nevertheless carries a compliance score. -/
def failedScored : ValidationResult :=
  { server_name := "srv", server_url := "url", status := "failed",
    compliance_score := some 50, protocol_version := none, capabilities := [],
    issues := [], duration_ms := 0, timestamp := "t" }

/-- C8 counterexample: a collection whose only result carries a compliance
score but is not successful gets no mean at all — the mean is gated on at
least one compliant/passed result, not on the presence of scores. -/
theorem report_mean_gate_counterexample :
    (generate_report [failedScored]).summary.average_compliance_score = none ∧
    complianceScores [failedScored] = [50] := by
  exact ⟨rfl, rfl⟩

/-- C8 amended: when at least one validation is successful, the mean runs
over exactly the results that carry a score (and is absent when none do);
with no successful validation the mean is always absent, for EVERY
collection, even one whose results carry scores; and the success rate of an
empty collection is 0. -/
theorem generate_report_amended (rs : List ValidationResult)
    (h : 0 < successfulValidations rs) :
    (generate_report rs).summary.average_compliance_score =
      (if complianceScores rs = [] then none
       else some ((complianceScores rs).sum / ((complianceScores rs).length : Rat))) ∧
    (∀ rs2 : List ValidationResult, complianceScores rs2 = [] →
      (generate_report rs2).summary.average_compliance_score = none) ∧
    (∀ rs3 : List ValidationResult, rs3.length = 0 →
      (generate_report rs3).summary.success_rate = 0) ∧
    (∀ rs4 : List ValidationResult, successfulValidations rs4 = 0 →
      (generate_report rs4).summary.average_compliance_score = none) := by
  refine ⟨?_, ?_, ?_, ?_⟩
  · simp only [generate_report, averageCompliance, if_pos h]
    by_cases hs : complianceScores rs = []
    · simp [hs]
    · simp [hs]
  · intro rs2 h2
    simp only [generate_report, averageCompliance]
    split
    · simp [h2]
    · rfl
  · intro rs3 h3
    have h4 : rs3 = [] := List.length_eq_zero.mp h3
    subst h4
    rfl
  · intro rs4 h4
    simp [generate_report, averageCompliance, h4]

/-- A compliant result carrying a compliance score. -/
def compliantScored : ValidationResult :=
  { server_name := "srv", server_url := "url", status := "compliant",
    compliance_score := some 80, protocol_version := none, capabilities := [],
    issues := [], duration_ms := 0, timestamp := "t" }

/-- Witness for the amended C8 at a one-element successful collection. -/
theorem generate_report_amended_witness :
    (generate_report [compliantScored]).summary.average_compliance_score =
      (if complianceScores [compliantScored] = [] then none
       else some ((complianceScores [compliantScored]).sum /
         ((complianceScores [compliantScored]).length : Rat))) ∧
    (∀ rs2 : List ValidationResult, complianceScores rs2 = [] →
      (generate_report rs2).summary.average_compliance_score = none) ∧
    (∀ rs3 : List ValidationResult, rs3.length = 0 →
      (generate_report rs3).summary.success_rate = 0) ∧
    (∀ rs4 : List ValidationResult, successfulValidations rs4 = 0 →
      (generate_report rs4).summary.average_compliance_score = none) :=
  generate_report_amended [compliantScored] (by decide)

/-- C9: a cloned repository with none of the recognized manifest files is
provisioned as a non-None config of type "unknown" with no start command
(first conjunct); a config without a start command never yields a process
handle (second conjunct); hence the target's final status is
"failed_to_start", not "setup_failed" (third conjunct). -/
theorem no_manifest_failed_to_start (nm url : String) (env : TargetEnv)
    (h1 : env.repo.raises = false) (h2 : env.repo.clone_ok = true)
    (h3 : env.repo.has_package_json = false)
    (h4 : env.repo.has_pyproject = false) (h5 : env.repo.has_setup_py = false) :
    setup_test_environment env.temp_dir env.repo =
      some { path := env.temp_dir, type_ := "unknown", start_command := none,
             port := none } ∧
    (∀ (cfg : ProvisionConfig) (o : StartOutcome), cfg.start_command = none →
      start_server cfg o = false) ∧
    (validate_implementation nm url env).status = "failed_to_start" := by
  have hset : setup_test_environment env.temp_dir env.repo =
      some { path := env.temp_dir, type_ := "unknown", start_command := none,
             port := none } := by
    simp [setup_test_environment, h1, h2, h3, h4, h5]
  refine ⟨hset, ?_, ?_⟩
  · intro cfg o hc
    simp [start_server, hc]
  · simp [validate_implementation, hset, start_server]

/-- A repository that clones cleanly but contains no recognized manifest. -/
def bareRepo : Repo :=
  { raises := false, clone_ok := true, has_package_json := false,
    npm_scripts := [], has_pyproject := false, has_setup_py := false,
    has_src := false, src_mcp_dirs := [], has_examples := false,
    example_server_files := [] }

/-- A target environment around `bareRepo`. -/
def bareEnv : TargetEnv :=
  { temp_dir := "/tmp/mcp_test_x", repo := bareRepo,
    startOut := StartOutcome.running, validatorExists := true, buildExit := 0,
    buildStderr := "", runOut := RunOutcome.timedOut, timestamp := "t" }

/-- Witness for C9 at the concrete manifest-free repository. -/
theorem no_manifest_failed_to_start_witness :
    setup_test_environment bareEnv.temp_dir bareEnv.repo =
      some { path := bareEnv.temp_dir, type_ := "unknown", start_command := none,
             port := none } ∧
    (∀ (cfg : ProvisionConfig) (o : StartOutcome), cfg.start_command = none →
      start_server cfg o = false) ∧
    (validate_implementation "a" "b" bareEnv).status = "failed_to_start" :=
  no_manifest_failed_to_start "a" "b" bareEnv rfl rfl rfl rfl rfl

/-- C2: in a batch, (1) when every task completes without an internal
exception, run_validation returns exactly one result per target; (2) a
target placed anywhere in the batch contributes exactly its own
`validate_implementation` result, leaving every other target's results
exactly what they are in its absence; (3) a target whose provisioning
returns None gets status "setup_failed"; (4) a task that raises an internal
exception is excluded from the final collection rather than propagated. -/
theorem run_validation_isolation (ts pre post : List Target)
    (nm url m : String) (env : TargetEnv)
    (hall : ∀ t ∈ ts, t.outcome.isCompleted = true)
    (hsetup : setup_test_environment env.temp_dir env.repo = none) :
    (run_validation ts).length = ts.length ∧
    run_validation (pre ++
        [{ name := nm, url := url, outcome := TaskOutcome.completed env }] ++ post) =
      run_validation pre ++ [validate_implementation nm url env] ++
        run_validation post ∧
    (validate_implementation nm url env).status = "setup_failed" ∧
    run_validation (pre ++
        [{ name := nm, url := url, outcome := TaskOutcome.internalFault m }] ++ post) =
      run_validation pre ++ run_validation post := by
  refine ⟨?_, ?_, ?_, ?_⟩
  · induction ts with
    | nil => rfl
    | cons t ts ih =>
      have ht : t.outcome.isCompleted = true := hall t (by simp)
      have hts : ∀ t2 ∈ ts, t2.outcome.isCompleted = true := by
        intro t2 h2
        exact hall t2 (by simp [h2])
      cases hout : t.outcome with
      | completed env2 =>
        simp [run_validation, runTask, hout] at ih ⊢
        exact ih hts
      | internalFault m2 =>
        rw [hout] at ht
        cases ht
  · simp [run_validation, List.filterMap_append, runTask]
  · simp [validate_implementation, hsetup]
  · simp [run_validation, List.filterMap_append, runTask]

/-- An environment whose provisioning raises, so setup returns None. -/
def failingEnv : TargetEnv :=
  { bareEnv with repo := { bareRepo with raises := true } }

/-- A healthy concrete target. -/
def healthyTarget : Target :=
  { name := "a", url := "u", outcome := TaskOutcome.completed bareEnv }

/-- Witness for C2: a two-target batch around one provisioning-failing
target and one internally-faulting target, at concrete values. -/
theorem run_validation_isolation_witness :
    (run_validation [healthyTarget]).length = [healthyTarget].length ∧
    run_validation ([healthyTarget] ++
        [{ name := "k", url := "v", outcome := TaskOutcome.completed failingEnv }] ++ []) =
      run_validation [healthyTarget] ++
        [validate_implementation "k" "v" failingEnv] ++ run_validation [] ∧
    (validate_implementation "k" "v" failingEnv).status = "setup_failed" ∧
    run_validation ([healthyTarget] ++
        [{ name := "k", url := "v", outcome := TaskOutcome.internalFault "boom" }] ++ []) =
      run_validation [healthyTarget] ++ run_validation [] :=
  run_validation_isolation [healthyTarget] _ _
    "k" "v" "boom" failingEnv (by intro t ht; simp at ht; subst ht; rfl) rfl

/-- Whether a step result is a normal continuation. -/
def StepRes.isOk : StepRes → Bool
  | StepRes.ok _ => true
  | StepRes.raised _ _ => false

/-- Decomposition of a successfully completed step sequence. -/
theorem andThen_ok {r : StepRes} {f : ErrProbeState → StepRes}
    {s : ErrProbeState} (h : andThen r f = StepRes.ok s) :
    ∃ s0, r = StepRes.ok s0 ∧ f s0 = StepRes.ok s := by
  cases r with
  | ok st => exact ⟨st, rfl, h⟩
  | raised m st => cases h

/-- A completed initialize exchange sets initialized and leaves the
sub-check counters untouched. -/
theorem errInit_ok_spec {st st' : ErrProbeState} {o : SendOutcome}
    (h : errInit st o = StepRes.ok st') :
    st'.results.initialized = true ∧
    st'.error_tests_total = st.error_tests_total ∧
    st'.error_tests_passed = st.error_tests_passed := by
  cases o with
  | exn m => cases h
  | resp s b =>
    simp only [errInit] at h
    by_cases hs : s ≠ 200
    · simp [hs] at h
    · simp only [hs, if_false] at h
      cases b with
      | notJson => cases h
      | json hr e =>
        cases e with
        | some c => cases h
        | none =>
          injection h with h2
          subst h2
          exact ⟨rfl, rfl, rfl⟩

/-- A completed generic sub-check increments exactly the total and never
touches initialized. -/
theorem subCheck_ok_spec {spec : SubCheckSpec} {st st' : ErrProbeState}
    {o : SendOutcome} (h : subCheck spec st o = StepRes.ok st') :
    st'.error_tests_total = st.error_tests_total + 1 ∧
    st'.results.initialized = st.results.initialized := by
  cases o with
  | exn m => simp [subCheck] at h
  | resp s b =>
    simp only [subCheck] at h
    by_cases hs : s = 200
    · simp only [hs, if_true, if_pos rfl] at h
      cases b with
      | notJson => cases h
      | json hr e =>
        cases e with
        | some c =>
          by_cases hc : spec.required c
          · simp only [hc, if_true] at h
            injection h with h2
            subst h2
            exact ⟨rfl, rfl⟩
          · simp only [hc, if_false] at h
            injection h with h2
            subst h2
            exact ⟨rfl, rfl⟩
        | none =>
          injection h with h2
          subst h2
          exact ⟨rfl, rfl⟩
    · simp only [hs, if_false] at h
      injection h with h2
      subst h2
      exact ⟨rfl, rfl⟩

/-- The malformed-JSON sub-check never raises, increments exactly the
total, and never touches initialized. -/
theorem subCheck5_spec (st : ErrProbeState) (o : SendOutcome) :
    (subCheck5 st o).isOk = true ∧
    (subCheck5 st o).state.error_tests_total = st.error_tests_total + 1 ∧
    (subCheck5 st o).state.results.initialized = st.results.initialized := by
  cases o with
  | exn m => exact ⟨rfl, rfl, rfl⟩
  | resp s b =>
    by_cases hs : s = 200 ∨ s = 400
    · rcases hs with rfl | rfl <;>
        cases b with
        | notJson => simp [subCheck5, StepRes.isOk, StepRes.state]
        | json hr e =>
          cases e with
          | none => simp [subCheck5, StepRes.isOk, StepRes.state]
          | some c =>
            by_cases hc : c = some (-32700) <;>
              simp [subCheck5, hc, StepRes.isOk, StepRes.state]
    · simp [subCheck5, hs, StepRes.isOk, StepRes.state]

/-- A fully completed scripted exchange ends initialized with exactly five
sub-checks counted. -/
theorem runErrChecks_ok_spec {srv : ErrServer} {stF : ErrProbeState}
    (h : runErrChecks srv = StepRes.ok stF) :
    stF.results.initialized = true ∧ stF.error_tests_total = 5 := by
  unfold runErrChecks at h
  obtain ⟨s1, h1, h⟩ := andThen_ok h
  obtain ⟨s2, h2, h⟩ := andThen_ok h
  obtain ⟨s3, h3, h⟩ := andThen_ok h
  obtain ⟨s4, h4, h⟩ := andThen_ok h
  obtain ⟨s5, h5, h⟩ := andThen_ok h
  have i1 := errInit_ok_spec h1
  have i2 := subCheck_ok_spec h2
  have i3 := subCheck_ok_spec h3
  have i4 := subCheck_ok_spec h4
  have i5 := subCheck_ok_spec h5
  obtain ⟨-, i6t, i6i⟩ := subCheck5_spec s5 srv.t5
  rw [h] at i6t i6i
  simp only [StepRes.state] at i6t i6i
  constructor
  · rw [i6i, i5.2, i4.2, i3.2, i2.2]
    exact i1.1
  · have h0 : s1.error_tests_total = 0 := i1.2.1
    omega

/-- The summary step only appends an issue; counters and scores are
unchanged. -/
theorem addSummary_preserves (st : ErrProbeState) :
    (addSummary st).results = st.results ∧
    (addSummary st).error_tests_passed = st.error_tests_passed ∧
    (addSummary st).error_tests_total = st.error_tests_total := by
  unfold addSummary
  split <;> exact ⟨rfl, rfl, rfl⟩

/-- A server answering every sub-check with the required code: a normal
initialize, -32600 for the bad version, -32600 for the missing method,
-32601 for the unknown method, -32602 for the bad params, and HTTP 400
with -32700 for the malformed body. -/
def goodErrServer : ErrServer :=
  { init := SendOutcome.resp 200 (Body.json true none)
    t1 := SendOutcome.resp 200 (Body.json false (some (some (-32600))))
    t2 := SendOutcome.resp 200 (Body.json false (some (some (-32600))))
    t3 := SendOutcome.resp 200 (Body.json false (some (some (-32601))))
    t4 := SendOutcome.resp 200 (Body.json false (some (some (-32602))))
    t5 := SendOutcome.resp 400 (Body.json false (some (some (-32700)))) }

/-- C3: for every fully completed run, the probe reports success exactly
when the handshake initialized and at least 4 of the 5 sub-checks passed
(the 80% threshold at a total of five); and in particular the compliant
mock server passes all five and gets success=true. -/
theorem error_probe_success_iff (srv : ErrServer)
    (h : errRunCompletes srv = true) :
    ((test_error_handling srv).success = true ↔
      ((errFinalState srv).results.initialized = true ∧
        4 ≤ (errFinalState srv).error_tests_passed)) ∧
    (errFinalState srv).results.initialized = true ∧
    (errFinalState srv).error_tests_total = 5 ∧
    (errFinalState goodErrServer).error_tests_passed = 5 ∧
    (test_error_handling goodErrServer).success = true := by
  have hok : ∃ stF, runErrChecks srv = StepRes.ok stF := by
    unfold errRunCompletes at h
    cases hr : runErrChecks srv with
    | ok st => exact ⟨st, rfl⟩
    | raised m st => rw [hr] at h; cases h
  obtain ⟨stF, hF⟩ := hok
  obtain ⟨hInit, hTot⟩ := runErrChecks_ok_spec hF
  have hfin : errFinalState srv = addSummary stF := by
    unfold errFinalState
    rw [hF]
    rfl
  obtain ⟨pr, pp, pt⟩ := addSummary_preserves stF
  have e1 : (errFinalState srv).results.initialized = true := by
    rw [hfin, pr]; exact hInit
  have e2 : (errFinalState srv).error_tests_total = 5 := by
    rw [hfin, pt]; exact hTot
  refine ⟨?_, e1, e2, by rfl, by rfl⟩
  have hsucc : (test_error_handling srv).success =
      ((errFinalState srv).results.initialized &&
        decide (4 * (errFinalState srv).error_tests_total ≤
          5 * (errFinalState srv).error_tests_passed)) := rfl
  rw [hsucc, e1, e2]
  simp only [Bool.true_and, decide_eq_true_eq, eq_self_iff_true, true_and]
  omega

/-- Witness for C3 at the compliant mock server. -/
theorem error_probe_success_iff_witness :
    ((test_error_handling goodErrServer).success = true ↔
      ((errFinalState goodErrServer).results.initialized = true ∧
        4 ≤ (errFinalState goodErrServer).error_tests_passed)) ∧
    (errFinalState goodErrServer).results.initialized = true ∧
    (errFinalState goodErrServer).error_tests_total = 5 ∧
    (errFinalState goodErrServer).error_tests_passed = 5 ∧
    (test_error_handling goodErrServer).success = true :=
  error_probe_success_iff goodErrServer (by rfl)

/-- A server that answers the first four sub-checks with the required
codes but silently accepts the malformed JSON body: HTTP 200 with a JSON
body carrying neither "result" nor "error". -/
def silentAcceptServer : ErrServer :=
  { goodErrServer with t5 := SendOutcome.resp 200 (Body.json false none) }

/-- C4 counterexample: against `silentAcceptServer` the probe ends with an
empty issue list and errors_encountered = 0 — the malformed-JSON sub-check
records no "error" Issue and no increment when the server silently accepts
the input (transport 200, no "error" key), refuting the claim for that
fifth sub-check. -/
theorem malformed_silent_accept_counterexample :
    (test_error_handling silentAcceptServer).issues = [] ∧
    (test_error_handling silentAcceptServer).results =
      some { connected := true, initialized := true, messages_exchanged := 11,
             errors_encountered := 0 } := by
  exact ⟨rfl, rfl⟩

/-- C4 amended: in each of the FIRST FOUR adversarial sub-checks, a
response that silently accepts the input (status 200, JSON body without an
"error" key) appends a severity="error" Issue and increments
errors_encountered; the fifth (malformed JSON) sub-check records nothing at
all in that situation, only counting the exchanged message. -/
theorem silent_accept_recording (spec : SubCheckSpec) (st : ErrProbeState)
    (hr : Bool) :
    subCheck spec st (SendOutcome.resp 200 (Body.json hr none)) =
      StepRes.ok { st with
        error_tests_total := st.error_tests_total + 1,
        results := { st.results with
          messages_exchanged := st.results.messages_exchanged + 2,
          errors_encountered := st.results.errors_encountered + 1 },
        issues := st.issues ++
          [{ severity := Severity.error, category := "error_handling",
             description := spec.acceptDesc }] } ∧
    subCheck5 st (SendOutcome.resp 200 (Body.json hr none)) =
      StepRes.ok { st with
        error_tests_total := st.error_tests_total + 1,
        results := { st.results with
          messages_exchanged := st.results.messages_exchanged + 1 } } := by
  exact ⟨rfl, rfl⟩

/-- A server that answers every sub-check with the required code except
the invalid-params one, where it returns a present but wrong code
(-32601). -/
def wrongCodeParamsServer : ErrServer :=
  { goodErrServer with
    t4 := SendOutcome.resp 200 (Body.json false (some (some (-32601)))) }

/-- C5 counterexample: against `wrongCodeParamsServer` the single recorded
Issue for the wrong-but-present code of the invalid-params sub-check has
severity "info", not "warning", refuting the claim that every sub-check
downgrades a wrong-but-present code to "warning". -/
theorem invalid_params_info_counterexample :
    (test_error_handling wrongCodeParamsServer).issues =
      [{ severity := Severity.info, category := "error_handling",
         description := "Unexpected error code for invalid params: -32601" }] ∧
    Severity.info ≠ Severity.warning := by
  exact ⟨rfl, by decide⟩

/-- C5 amended: a wrong-but-present error code is recorded with the
sub-check's own severity: "warning" for the invalid-version,
missing-method, unknown-method and malformed-JSON sub-checks, but "info"
for the invalid-params sub-check. -/
theorem wrong_code_severities (spec : SubCheckSpec) (st : ErrProbeState)
    (hr : Bool) (c : Option Int) (hc : spec.required c = false)
    (c5 : Option Int) (hc5 : ¬c5 = some (-32700)) (s5 : Nat)
    (hs5 : s5 = 200 ∨ s5 = 400) :
    subCheck spec st (SendOutcome.resp 200 (Body.json hr (some c))) =
      StepRes.ok { st with
        error_tests_total := st.error_tests_total + 1,
        results := { st.results with
          messages_exchanged := st.results.messages_exchanged + 2 },
        issues := st.issues ++
          [{ severity := spec.wrongSev, category := "error_handling",
             description := spec.wrongDesc ++ pyShowOptInt c }] } ∧
    spec1.wrongSev = Severity.warning ∧
    spec2.wrongSev = Severity.warning ∧
    spec3.wrongSev = Severity.warning ∧
    spec4.wrongSev = Severity.info ∧
    subCheck5 st (SendOutcome.resp s5 (Body.json hr (some c5))) =
      StepRes.ok { st with
        error_tests_total := st.error_tests_total + 1,
        results := { st.results with
          messages_exchanged := st.results.messages_exchanged + 1 },
        issues := st.issues ++
          [{ severity := Severity.warning, category := "error_handling",
             description := "Wrong error code for parse error: " ++
               pyShowOptInt c5 }] } := by
  refine ⟨?_, rfl, rfl, rfl, rfl, ?_⟩
  · simp [subCheck, hc]
  · rcases hs5 with rfl | rfl <;> simp [subCheck5, hc5]

/-- Witness for the amended C5 at the invalid-params sub-check receiving
-32601 and the malformed-JSON sub-check receiving -32600 on HTTP 200. -/
theorem wrong_code_severities_witness :
    subCheck spec4 {} (SendOutcome.resp 200 (Body.json false (some (some (-32601))))) =
      StepRes.ok { ({} : ErrProbeState) with
        error_tests_total := ({} : ErrProbeState).error_tests_total + 1,
        results := { ({} : ErrProbeState).results with
          messages_exchanged := ({} : ErrProbeState).results.messages_exchanged + 2 },
        issues := ({} : ErrProbeState).issues ++
          [{ severity := spec4.wrongSev, category := "error_handling",
             description := spec4.wrongDesc ++ pyShowOptInt (some (-32601)) }] } ∧
    spec1.wrongSev = Severity.warning ∧
    spec2.wrongSev = Severity.warning ∧
    spec3.wrongSev = Severity.warning ∧
    spec4.wrongSev = Severity.info ∧
    subCheck5 {} (SendOutcome.resp 200 (Body.json false (some (some (-32600))))) =
      StepRes.ok { ({} : ErrProbeState) with
        error_tests_total := ({} : ErrProbeState).error_tests_total + 1,
        results := { ({} : ErrProbeState).results with
          messages_exchanged := ({} : ErrProbeState).results.messages_exchanged + 1 },
        issues := ({} : ErrProbeState).issues ++
          [{ severity := Severity.warning, category := "error_handling",
             description := "Wrong error code for parse error: " ++
               pyShowOptInt (some (-32600)) }] } :=
  wrong_code_severities spec4 {} false (some (-32601)) (by decide)
    (some (-32600)) (by decide) 200 (Or.inl rfl)

/-- C6 counterexample: the error-handling probe's prologue sets
initialized=true on a 200 response whose JSON body has NO "result" key (and
no "error" key), refuting the claim that every probe's HTTP prologue
requires a "result" key for initialization success. -/
theorem err_init_no_result_counterexample :
    errInit {} (SendOutcome.resp 200 (Body.json false none)) =
      StepRes.ok { results :=
        { connected := true, initialized := true, messages_exchanged := 2 } } := by
  rfl

/-- C6 amended: the basic-connection and transport-compat HTTP prologues
require both a 200 status and a "result" key — in each, initialized equals
exactly that conjunction and messages_exchanged grows by exactly 2 when it
holds, 0 otherwise; the error-handling probe's prologue instead requires a
200 status and the ABSENCE of an "error" key, ignoring the "result" key
entirely: its initialize step succeeds (and then sets initialized) exactly
when the status is 200 and the JSON body has no "error" member, and always
raises on a non-JSON body or a client-side exception. -/
theorem http_prologue_amended (s : Nat) (hr hr2 : Bool)
    (e : Option (Option Int)) (it : Bool) (sse : SseOutcome)
    (st : ErrProbeState) (m : String) :
    (test_basic_connection_http (SendOutcome.resp s (Body.json hr e)) it).1.initialized =
      (decide (s = 200) && hr) ∧
    (test_basic_connection_http (SendOutcome.resp s (Body.json hr e)) it).1.messages_exchanged =
      (if s = 200 ∧ hr = true then 2 else 0) ∧
    (test_transport_compat_http (SendOutcome.resp s (Body.json hr e)) sse).1.initialized =
      (decide (s = 200) && hr) ∧
    (test_transport_compat_http (SendOutcome.resp s (Body.json hr e)) sse).1.messages_exchanged =
      (if s = 200 ∧ hr = true then 2 else 0) ∧
    errInit st (SendOutcome.resp 200 (Body.json hr none)) =
      errInit st (SendOutcome.resp 200 (Body.json hr2 none)) ∧
    (errInit st (SendOutcome.resp 200 (Body.json hr none))).state.results.initialized =
      true ∧
    (errInit st (SendOutcome.resp s (Body.json hr e))).isOk =
      (decide (s = 200) && e.isNone) ∧
    (errInit st (SendOutcome.resp s Body.notJson)).isOk = false ∧
    (errInit st (SendOutcome.exn m)).isOk = false := by
  refine ⟨?_, ?_, ?_, ?_, rfl, rfl, ?_, ?_, rfl⟩
  · by_cases hs : s = 200
    · subst hs
      cases hr <;> simp [test_basic_connection_http]
    · cases hr <;> simp [test_basic_connection_http, hs]
  · by_cases hs : s = 200
    · subst hs
      cases hr <;> simp [test_basic_connection_http]
    · cases hr <;> simp [test_basic_connection_http, hs]
  · by_cases hs : s = 200
    · subst hs
      cases hr <;> cases sse <;> simp [test_transport_compat_http] <;>
        split <;> rfl
    · cases hr <;> cases sse <;> simp [test_transport_compat_http, hs] <;>
        split <;> rfl
  · by_cases hs : s = 200
    · subst hs
      cases hr <;> cases sse <;> simp [test_transport_compat_http] <;>
        split <;> rfl
    · cases hr <;> cases sse <;> simp [test_transport_compat_http, hs] <;>
        split <;> rfl
  · by_cases hs : s = 200
    · subst hs
      cases e <;> simp [errInit, StepRes.isOk]
    · cases e <;> simp [errInit, StepRes.isOk, hs]
  · by_cases hs : s = 200
    · subst hs
      simp [errInit, StepRes.isOk]
    · simp [errInit, StepRes.isOk, hs]

/-- C10: in the malformed-JSON sub-check, a client-side exception while
sending counts the sub-check as passed (first conjunct, with
messages_exchanged untouched on that path); when a response does arrive,
messages_exchanged grows by exactly 1 (second conjunct), in contrast with
the other sub-checks, which grow it by 2 on a 200 response (third
conjunct). -/
theorem malformed_subcheck_accounting (st : ErrProbeState) (m : String)
    (s : Nat) (b : Body) (spec : SubCheckSpec) (hr : Bool)
    (ef : Option (Option Int)) :
    subCheck5 st (SendOutcome.exn m) =
      StepRes.ok { st with
        error_tests_total := st.error_tests_total + 1,
        error_tests_passed := st.error_tests_passed + 1 } ∧
    (subCheck5 st (SendOutcome.resp s b)).state.results.messages_exchanged =
      st.results.messages_exchanged + 1 ∧
    (subCheck spec st (SendOutcome.resp 200 (Body.json hr ef))).state.results.messages_exchanged =
      st.results.messages_exchanged + 2 := by
  refine ⟨rfl, ?_, ?_⟩
  · by_cases hs : s = 200 ∨ s = 400
    · rcases hs with rfl | rfl <;>
        cases b with
        | notJson => simp [subCheck5, StepRes.state]
        | json hr3 e =>
          cases e with
          | none => simp [subCheck5, StepRes.state]
          | some c =>
            by_cases hc : c = some (-32700) <;>
              simp [subCheck5, hc, StepRes.state]
    · simp [subCheck5, hs, StepRes.state]
  · cases ef with
    | none => simp [subCheck, StepRes.state]
    | some c =>
      by_cases hc : spec.required c <;> simp [subCheck, hc, StepRes.state]
